import Mathlib

/-!
Shallow embedding of go/vt/worker/sqldiffer.go (package worker).

The worker runs a sanity check between a superset and a subset SQL query
target: target discovery, replication synchronization, a streaming row
diff, and unconditional cleanup, with cooperative cancellation.

External collaborators (topology server, tablet manager client, query
result readers, row differ, cleanup stack execution) are modelled by an
oracle structure `Env` supplying every external call outcome, and every
operation additionally returns the list of observable events it emitted,
so that ordering and frame properties can be stated over traces.

Logger calls (wr.Logger().Infof / Errorf) carry no worker state and are
not modelled as events, except that the outcome of differ.Go is recorded
as an event because the source inspects it only to choose a log line.
-/

set_option autoImplicit false

namespace SqlDiff

/-- Tablet alias, from topo.TabletAlias (cell plus uid). -/
structure TabletAlias where
  cell : String
  uid : Nat
deriving DecidableEq, Repr

/-- String rendering of a tablet alias, used inside wrapped error
messages (the numeric padding of the Go rendering is not modelled). -/
def TabletAlias.str (a : TabletAlias) : String :=
  a.cell ++ "-" ++ toString a.uid

/-- Tablet types relevant to this worker: the cleaner actions move a
tablet between rdonly, checker and spare. -/
inductive TabletType where
  | rdonly
  | spare
  | checker
deriving DecidableEq, Repr

/-- Go error values. topo.ErrInterrupted is the distinguished
interruption classification; every other error is a message. -/
inductive GoError where
  | interrupted
  | mk (msg : String)
deriving DecidableEq, Repr

/-- The message of an error, as fmt %v would print it. -/
def GoError.message : GoError → String
  | .interrupted => "interrupted"
  | .mk s => s

/-- sqlDiffWorkerState: all the states for the worker. -/
inductive SqlDiffWorkerState where
  | sqlDiffNotSarted
  | sqlDiffDone
  | sqlDiffError
  | sqlDiffFindTargets
  | sqlDiffSynchronizeReplication
  | sqlDiffRunning
  | sqlDiffCleanUp
deriving DecidableEq, Repr

/-- The String method of sqlDiffWorkerState. -/
def SqlDiffWorkerState.str : SqlDiffWorkerState → String
  | .sqlDiffNotSarted => "not started"
  | .sqlDiffDone => "done"
  | .sqlDiffError => "error"
  | .sqlDiffFindTargets => "finding target instances"
  | .sqlDiffSynchronizeReplication => "synchronizing replication"
  | .sqlDiffRunning => "running the diff"
  | .sqlDiffCleanUp => "cleaning up"

/-- SourceSpec specifies a SQL query in some keyspace and shard; alias
is populated during findTargets. -/
structure SourceSpec where
  Keyspace : String
  Shard : String
  SQL : String
  «alias» : TabletAlias
deriving DecidableEq, Repr

/-- Cleanup actions recorded in the wrangler.Cleaner, modelled as the
data each recorded action carries: restoring a tablet type, or
restarting replication on a tablet. -/
inductive CleanerAction where
  | changeSlaveType (target : TabletAlias) (tabletType : TabletType)
  | startSlave (target : TabletAlias)
deriving DecidableEq, Repr

/-- Status of the worker context as observed at one cancellation
checkpoint: not done, cancelled, or done with a deadline error. -/
inductive CtxStatus where
  | active
  | canceled
  | deadlineExceeded
deriving DecidableEq, Repr

/-- Which of the two query targets an event refers to. -/
inductive Side where
  | supersetSide
  | subsetSide
deriving DecidableEq, Repr

/-- Observable events emitted by the worker operations. -/
inductive Event where
  | setStateEv (s : SqlDiffWorkerState)
  | recordErrorEv (e : GoError)
  | checkCancelEv
  | aliasWriteEv (side : Side)
  | findCheckerCall (keyspace shard : String)
  | getTabletCall (a : TabletAlias)
  | stopSlaveCall (a : TabletAlias) (timeoutSeconds : Nat)
  | recordStartSlaveEv (a : TabletAlias)
  | sleepCall (seconds : Nat)
  | openStreamCall (side : Side)
  | closeStreamCall (side : Side)
  | differGoEv (failed : Bool)
  | cleanUpCall
deriving DecidableEq, Repr

/-- SQLDiffWorker: the state that lives in the Go struct (wrangler,
context and mutex handles are not data; the cleaner content is). -/
structure SQLDiffWorker where
  cell : String
  superset : SourceSpec
  subset : SourceSpec
  cleaner : List CleanerAction
  state : SqlDiffWorkerState
  err : Option GoError
deriving DecidableEq, Repr

/-- Oracle for every external call outcome of one run. `ctx` gives the
context status observed at the i-th cancellation checkpoint (the worker
context is cancelled externally, so its evolution is an input). `none`
means success for the Option-valued call outcomes. -/
structure Env where
  ctx : Nat → CtxStatus
  findCheckerSuperset : Except GoError TabletAlias
  findCheckerSubset : Except GoError TabletAlias
  getTabletSubset : Option GoError
  stopSlaveSubset : Option GoError
  getTabletSuperset : Option GoError
  stopSlaveSuperset : Option GoError
  openSuperset : Option GoError
  openSubset : Option GoError
  newDiffer : Option GoError
  differGo : Option GoError
  cleanUp : Option GoError

/-- Result of one worker operation: the worker after it, the checkpoint
clock after it, the events it emitted, and its returned error. -/
structure StepResult where
  worker : SQLDiffWorker
  clock : Nat
  trace : List Event
  err : Option GoError
deriving DecidableEq, Repr

/-- setState: store a new state under the lock. -/
def setState (w : SQLDiffWorker) (s : SqlDiffWorkerState) : SQLDiffWorker :=
  { w with state := s }

/-- recordError: store the error state and the error under the lock. -/
def recordError (w : SQLDiffWorker) (e : GoError) : SQLDiffWorker :=
  { w with state := .sqlDiffError, err := some e }

/-- NewSQLDiffWorker: fresh worker, empty cleaner, not-started state. -/
def NewSQLDiffWorker (cell : String) (superset subset : SourceSpec) :
    SQLDiffWorker :=
  { cell := cell, superset := superset, subset := subset,
    cleaner := [], state := .sqlDiffNotSarted, err := none }

/-- checkInterrupted: observe the context at the given checkpoint. Done
with a deadline error reports no interruption; cancellation records
topo.ErrInterrupted and reports interruption. -/
def checkInterrupted (env : Env) (w : SQLDiffWorker) (clock : Nat) :
    SQLDiffWorker × List Event × Bool :=
  match env.ctx clock with
  | .active => (w, [Event.checkCancelEv], false)
  | .deadlineExceeded => (w, [Event.checkCancelEv], false)
  | .canceled => (recordError w .interrupted,
      [Event.checkCancelEv, Event.recordErrorEv .interrupted], true)

/-- Modelled from the spec: findChecker (target discovery helper, whose
code is not part of this source file) resolves one read-only replica
(outcome supplied by the oracle) and, on success, records the release
of the reservation as a ChangeSlaveType(rdonly) cleanup action. -/
def findChecker (res : Except GoError TabletAlias)
    (cleaner : List CleanerAction) :
    List CleanerAction × Except GoError TabletAlias :=
  match res with
  | .ok a => (cleaner ++ [.changeSlaveType a .rdonly], .ok a)
  | .error e => (cleaner, .error e)

/-- Modelled from the spec: wrangler.FindChangeSlaveTypeActionByTarget
returns the first ChangeSlaveType cleanup action recorded for the given
target, or nothing when none was recorded. -/
def FindChangeSlaveTypeActionByTarget : List CleanerAction →
    TabletAlias → Option TabletType
  | [], _ => none
  | .changeSlaveType t ty :: rest, target =>
    if t = target then some ty
    else FindChangeSlaveTypeActionByTarget rest target
  | .startSlave _ :: rest, target =>
    FindChangeSlaveTypeActionByTarget rest target

/-- Mutation of the found ChangeSlaveType action: set the tablet type
of the first ChangeSlaveType action for the target to spare. -/
def setChangeSlaveTypeSpare : List CleanerAction → TabletAlias →
    List CleanerAction
  | [], _ => []
  | .changeSlaveType t ty :: rest, target =>
    if t = target then .changeSlaveType t .spare :: rest
    else .changeSlaveType t ty :: setChangeSlaveTypeSpare rest target
  | .startSlave t :: rest, target =>
    .startSlave t :: setChangeSlaveTypeSpare rest target

/-- findTargets phase: find one rdonly in superset, then one in subset,
marking them as checker (inside findChecker); the alias fields are
written here and nowhere else. On findChecker failure the Go multiple
assignment writes a zero alias; that write is not modelled, which does
not affect the write-at-most-once accounting. -/
def findTargets (env : Env) (w : SQLDiffWorker) (clock : Nat) :
    StepResult :=
  let w := setState w .sqlDiffFindTargets
  let tr := [Event.setStateEv .sqlDiffFindTargets,
    Event.findCheckerCall w.superset.Keyspace w.superset.Shard]
  match findChecker env.findCheckerSuperset w.cleaner with
  | (_, .error e) => ⟨w, clock, tr, some e⟩
  | (cl, .ok a) =>
    let w := { w with superset.«alias» := a, cleaner := cl }
    let tr := tr ++ [Event.aliasWriteEv .supersetSide,
      Event.findCheckerCall w.subset.Keyspace w.subset.Shard]
    match findChecker env.findCheckerSubset w.cleaner with
    | (_, .error e) => ⟨w, clock, tr, some e⟩
    | (cl2, .ok b) =>
      ⟨{ w with subset.«alias» := b, cleaner := cl2 },
        clock, tr ++ [Event.aliasWriteEv .subsetSide], none⟩

/-- synchronizeReplication phase: stop replication on the subset slave
under a 60 second timeout, check interruption, record StartSlave and
retype the ChangeSlaveType action to spare, sleep 5 seconds, check
interruption, then the same halt and recording on the superset slave. -/
def synchronizeReplication (env : Env) (w : SQLDiffWorker) (clock : Nat) :
    StepResult :=
  let w := setState w .sqlDiffSynchronizeReplication
  let tr := [Event.setStateEv .sqlDiffSynchronizeReplication,
    Event.getTabletCall w.subset.«alias»]
  match env.getTabletSubset with
  | some e => ⟨w, clock, tr, some e⟩
  | none =>
    let tr := tr ++ [Event.stopSlaveCall w.subset.«alias» 60]
    match env.stopSlaveSubset with
    | some e => ⟨w, clock, tr, some (.mk ("Cannot stop slave " ++
        w.subset.«alias».str ++ ": " ++ e.message))⟩
    | none =>
      let ci := checkInterrupted env w clock
      let w := ci.1
      let tr := tr ++ ci.2.1
      let clock := clock + 1
      if ci.2.2 then ⟨w, clock, tr, some .interrupted⟩
      else
        let w := { w with cleaner := w.cleaner ++
          [.startSlave w.subset.«alias»] }
        let tr := tr ++ [Event.recordStartSlaveEv w.subset.«alias»]
        match FindChangeSlaveTypeActionByTarget w.cleaner w.subset.«alias» with
        | none => ⟨w, clock, tr, some (.mk
            ("cannot find ChangeSlaveType action for " ++ w.subset.«alias».str))⟩
        | some _ =>
          let w := { w with cleaner :=
            setChangeSlaveTypeSpare w.cleaner w.subset.«alias» }
          let tr := tr ++ [Event.sleepCall 5]
          let ci2 := checkInterrupted env w clock
          let w := ci2.1
          let tr := tr ++ ci2.2.1
          let clock := clock + 1
          if ci2.2.2 then ⟨w, clock, tr, some .interrupted⟩
          else
            let tr := tr ++ [Event.getTabletCall w.superset.«alias»]
            match env.getTabletSuperset with
            | some e => ⟨w, clock, tr, some e⟩
            | none =>
              let tr := tr ++ [Event.stopSlaveCall w.superset.«alias» 60]
              match env.stopSlaveSuperset with
              | some e => ⟨w, clock, tr, some (.mk ("Cannot stop slave " ++
                  w.superset.«alias».str ++ ": " ++ e.message))⟩
              | none =>
                let w := { w with cleaner := w.cleaner ++
                  [.startSlave w.superset.«alias»] }
                let tr := tr ++
                  [Event.recordStartSlaveEv w.superset.«alias»]
                match FindChangeSlaveTypeActionByTarget w.cleaner
                    w.superset.«alias» with
                | none => ⟨w, clock, tr, some (.mk
                    ("cannot find ChangeSlaveType action for " ++
                      w.superset.«alias».str))⟩
                | some _ =>
                  ⟨{ w with cleaner :=
                      setChangeSlaveTypeSpare w.cleaner w.superset.«alias» },
                    clock, tr, none⟩

/-- diff phase: open the superset stream, open the subset stream, build
the differ, run it. Each successfully opened stream is closed by a
deferred Close on every later exit path; the differ.Go outcome is only
inspected to choose a log line and diff returns nil regardless. -/
def diff (env : Env) (w : SQLDiffWorker) (clock : Nat) : StepResult :=
  let w := setState w .sqlDiffRunning
  let tr := [Event.setStateEv .sqlDiffRunning,
    Event.openStreamCall .supersetSide]
  match env.openSuperset with
  | some e => ⟨w, clock, tr, some e⟩
  | none =>
    let tr := tr ++ [Event.openStreamCall .subsetSide]
    match env.openSubset with
    | some e => ⟨w, clock, tr ++ [Event.closeStreamCall .supersetSide],
        some e⟩
    | none =>
      match env.newDiffer with
      | some e => ⟨w, clock, tr ++ [Event.closeStreamCall .subsetSide,
          Event.closeStreamCall .supersetSide], some e⟩
      | none =>
        ⟨w, clock, tr ++ [Event.differGoEv env.differGo.isSome,
          Event.closeStreamCall .subsetSide,
          Event.closeStreamCall .supersetSide], none⟩

/-- run: the three phases in order, with cancellation checkpoints after
target discovery, after a synchronization failure, and after a
synchronization success. -/
def run (env : Env) (w : SQLDiffWorker) : StepResult :=
  let r := findTargets env w 0
  match r.err with
  | some e => ⟨r.worker, r.clock, r.trace, some e⟩
  | none =>
    let ci := checkInterrupted env r.worker r.clock
    let tr := r.trace ++ ci.2.1
    let clock := r.clock + 1
    if ci.2.2 then ⟨ci.1, clock, tr, some .interrupted⟩
    else
      let s := synchronizeReplication env ci.1 clock
      let tr := tr ++ s.trace
      match s.err with
      | some e =>
        let ci2 := checkInterrupted env s.worker s.clock
        let tr := tr ++ ci2.2.1
        if ci2.2.2 then ⟨ci2.1, s.clock + 1, tr, some .interrupted⟩
        else ⟨ci2.1, s.clock + 1, tr, some e⟩
      | none =>
        let ci2 := checkInterrupted env s.worker s.clock
        let tr := tr ++ ci2.2.1
        if ci2.2.2 then ⟨ci2.1, s.clock + 1, tr, some .interrupted⟩
        else
          let d := diff env ci2.1 (s.clock + 1)
          ⟨d.worker, d.clock, tr ++ d.trace, d.err⟩

/-- Run: wrapper that runs the cleanup at the end. A cleanup failure
becomes the terminal error only when the run itself succeeded, else it
is only logged; the terminal state is Done exactly when both the run
and the cleanup succeeded. -/
def Run (env : Env) (w : SQLDiffWorker) : SQLDiffWorker × List Event :=
  let r := run env w
  let w1 := setState r.worker .sqlDiffCleanUp
  let tr := r.trace ++ [Event.setStateEv .sqlDiffCleanUp,
    Event.cleanUpCall]
  let err := match env.cleanUp with
    | some cerr =>
      match r.err with
      | some e => some e
      | none => some cerr
    | none => r.err
  match err with
  | some e => (recordError w1 e, tr ++ [Event.recordErrorEv e])
  | none => (setState w1 .sqlDiffDone,
      tr ++ [Event.setStateEv .sqlDiffDone])

/-- Text of the stored error as the status renderers display it; the Go
code would dereference a nil error if the state were error without an
error value, which cannot happen in a run. -/
def errText : Option GoError → String
  | some e => e.message
  | none => "<nil>"

/-- StatusAsText, from the source: target line, state line, and a
conditional third line for the error, running and done states. -/
def StatusAsText (w : SQLDiffWorker) : String :=
  let result := "Working on: " ++ w.subset.Keyspace ++ "/" ++
    w.subset.Shard ++ "\n"
  let result := result ++ "State: " ++ w.state.str ++ "\n"
  match w.state with
  | .sqlDiffError => result ++ "Error: " ++ errText w.err ++ "\n"
  | .sqlDiffRunning => result ++ "Running...\n"
  | .sqlDiffDone => result ++ "Success.\n"
  | _ => result

/-- StatusAsHTML, from the source: the same three lines with HTML
markup and break separators. -/
def StatusAsHTML (w : SQLDiffWorker) : String :=
  let result := "<b>Working on:</b> " ++ w.subset.Keyspace ++ "/" ++
    w.subset.Shard ++ "</br>\n"
  let result := result ++ "<b>State:</b> " ++ w.state.str ++ "</br>\n"
  match w.state with
  | .sqlDiffError => result ++ "<b>Error</b>: " ++ errText w.err ++
      "</br>\n"
  | .sqlDiffRunning => result ++ "<b>Running...</b></br>\n"
  | .sqlDiffDone => result ++ "<b>Success.</b></br>\n"
  | _ => result

/-! Trace observation helpers. -/

/-- Whether an event is a replication halt call. -/
def isStopSlave : Event → Bool
  | .stopSlaveCall _ _ => true
  | _ => false

/-- Whether an event is a remote contact of the given tablet; used with
the superset alias to delimit the part of a trace before the superset
replica is first contacted. -/
def contactsTablet (a : TabletAlias) : Event → Bool
  | .getTabletCall b => b = a
  | .stopSlaveCall b _ => b = a
  | _ => false

/-- The sequence of writes to the shared state field, in trace order
(setState writes, and the error-state write done by recordError). -/
def stateWrites (tr : List Event) : List SqlDiffWorkerState :=
  tr.filterMap fun e =>
    match e with
    | .setStateEv s => some s
    | .recordErrorEv _ => some .sqlDiffError
    | _ => none

/-- Position of a state in the forward order claimed by the spec:
NotStarted, FindingTargets, SynchronizingReplication, Running,
CleaningUp, then one of the two terminal states. -/
def stateRank : SqlDiffWorkerState → Nat
  | .sqlDiffNotSarted => 0
  | .sqlDiffFindTargets => 1
  | .sqlDiffSynchronizeReplication => 2
  | .sqlDiffRunning => 3
  | .sqlDiffCleanUp => 4
  | .sqlDiffDone => 5
  | .sqlDiffError => 5

/-- Whether a state is terminal. -/
def isTerminal : SqlDiffWorkerState → Bool
  | .sqlDiffDone => true
  | .sqlDiffError => true
  | _ => false

/-- Whether a sequence of state writes only moves forward: every
adjacent pair of writes is non-decreasing in rank. -/
def forwardWrites : List SqlDiffWorkerState → Bool
  | a :: b :: rest =>
    decide (stateRank a ≤ stateRank b) && forwardWrites (b :: rest)
  | _ => true

/-! Specification-side model of the status renderings, written from the
words of the claim: both renderers show the same target identity, the
same state string and the same conditional third line, differing only
in markup and line separators. -/

/-- The conditional third line of a status rendering. -/
inductive ThirdLine where
  | errorLine (msg : String)
  | runningLine
  | successLine
deriving DecidableEq, Repr

/-- The information shown by one status rendering. -/
structure StatusSnapshot where
  target : String
  stateStr : String
  third : Option ThirdLine
deriving DecidableEq, Repr

/-- The information a worker snapshot exposes to both renderers. -/
def statusSnapshot (w : SQLDiffWorker) : StatusSnapshot :=
  { target := w.subset.Keyspace ++ "/" ++ w.subset.Shard
    stateStr := w.state.str
    third :=
      match w.state with
      | .sqlDiffError => some (.errorLine (errText w.err))
      | .sqlDiffRunning => some .runningLine
      | .sqlDiffDone => some .successLine
      | _ => none }

/-- Plain-text formatting of a snapshot: the two header lines followed
by the optional third line, with plain markers and newline
separators. -/
def renderStatusText (s : StatusSnapshot) : String :=
  let r := "Working on: " ++ s.target ++ "\n"
  let r := r ++ "State: " ++ s.stateStr ++ "\n"
  match s.third with
  | some (.errorLine m) => r ++ "Error: " ++ m ++ "\n"
  | some .runningLine => r ++ "Running...\n"
  | some .successLine => r ++ "Success.\n"
  | none => r

/-- HTML formatting of a snapshot: the same information with bold
markup and break separators. -/
def renderStatusHTML (s : StatusSnapshot) : String :=
  let r := "<b>Working on:</b> " ++ s.target ++ "</br>\n"
  let r := r ++ "<b>State:</b> " ++ s.stateStr ++ "</br>\n"
  match s.third with
  | some (.errorLine m) => r ++ "<b>Error</b>: " ++ m ++ "</br>\n"
  | some .runningLine => r ++ "<b>Running...</b></br>\n"
  | some .successLine => r ++ "<b>Success.</b></br>\n"
  | none => r

/-! Concrete fixtures used by witnesses and counterexamples. -/

/-- A concrete superset replica alias. -/
def aliasA : TabletAlias := ⟨"cellA", 1⟩

/-- A concrete subset replica alias. -/
def aliasB : TabletAlias := ⟨"cellA", 2⟩

/-- A concrete superset source spec. -/
def specSup : SourceSpec :=
  { Keyspace := "ks1", Shard := "0", SQL := "q1", «alias» := ⟨"", 0⟩ }

/-- A concrete subset source spec. -/
def specSub : SourceSpec :=
  { Keyspace := "ks2", Shard := "0", SQL := "q2", «alias» := ⟨"", 0⟩ }

/-- A fresh worker as NewSQLDiffWorker builds it. -/
def w0 : SQLDiffWorker := NewSQLDiffWorker "cellA" specSup specSub

/-- A worker as it stands after successful target discovery: aliases
resolved and one ChangeSlaveType cleanup action per reserved replica. -/
def wReady : SQLDiffWorker :=
  { cell := "cellA"
    superset := { specSup with «alias» := aliasA }
    subset := { specSub with «alias» := aliasB }
    cleaner := [.changeSlaveType aliasA .rdonly,
      .changeSlaveType aliasB .rdonly]
    state := .sqlDiffFindTargets
    err := none }

/-- An oracle on which every external call succeeds and the context is
never done. -/
def envOK : Env :=
  ⟨fun _ => CtxStatus.active, Except.ok aliasA, Except.ok aliasB, none,
    none, none, none, none, none, none, none, none⟩

/-- envOK except that the row comparison itself fails fatally. -/
def envDifferFail : Env := { envOK with differGo := some (.mk "fatal read error") }

/-- envOK except that the context is cancelled right after the first
checkpoint passes. -/
def envCancelTail : Env :=
  { envOK with ctx := fun n => if n = 0 then .active else .canceled }

/-- envOK except that the context is cancelled before anything runs. -/
def envAllCanceled : Env := { envOK with ctx := fun _ => .canceled }

/-- Context cancelled before the run starts and target discovery fails
with the error of the cancelled resolution call. -/
def envC6 : Env :=
  { envAllCanceled with findCheckerSuperset := .error (.mk "context canceled") }

/-- Context done with a deadline error everywhere and the subset halt
call failing with a timeout error. -/
def envDeadlineStop : Env :=
  { envOK with ctx := fun _ => CtxStatus.deadlineExceeded
               stopSlaveSubset := some (.mk "stop slave timed out") }

/-- A worker whose cleaner lacks the ChangeSlaveType actions that
target discovery would have recorded. -/
def wNoCST : SQLDiffWorker := { wReady with cleaner := [] }

/-- A worker whose cleaner holds the ChangeSlaveType action for the
subset replica but lacks the one for the superset replica. -/
def wNoCSTSup : SQLDiffWorker :=
  { wReady with cleaner := [.changeSlaveType aliasB .rdonly] }

/-- envOK except that opening the superset query stream fails. -/
def envOpenFail : Env :=
  { envOK with openSuperset := some (.mk "open failed") }

/-! Event vocabulary of each operation, used for frame lemmas. -/

/-- Whether an event is one a cancellation checkpoint can emit. -/
def isCheckpointEvent : Event → Bool
  | .checkCancelEv => true
  | .recordErrorEv _ => true
  | _ => false

/-- Whether an event is one findTargets can emit. -/
def isFindTargetsEvent : Event → Bool
  | .setStateEv .sqlDiffFindTargets => true
  | .findCheckerCall _ _ => true
  | .aliasWriteEv _ => true
  | _ => false

/-- Whether an event is one synchronizeReplication can emit. -/
def isSyncEvent : Event → Bool
  | .setStateEv .sqlDiffSynchronizeReplication => true
  | .getTabletCall _ => true
  | .stopSlaveCall _ _ => true
  | .checkCancelEv => true
  | .recordErrorEv _ => true
  | .recordStartSlaveEv _ => true
  | .sleepCall _ => true
  | _ => false

/-- Whether an event is one diff can emit. -/
def isDiffEvent : Event → Bool
  | .setStateEv .sqlDiffRunning => true
  | .openStreamCall _ => true
  | .closeStreamCall _ => true
  | .differGoEv _ => true
  | _ => false

/-- Whether an event is an alias write for the given side. -/
def isAliasWrite (sd : Side) : Event → Bool
  | .aliasWriteEv s => s = sd
  | _ => false

/-- Whether an event is the cleanup stack invocation. -/
def isCleanUpCall : Event → Bool
  | .cleanUpCall => true
  | _ => false

/-- Whether an event closes the stream of the given side. -/
def isCloseStream (sd : Side) : Event → Bool
  | .closeStreamCall s => s = sd
  | _ => false

/-! Helper lemmas about the cancellation checkpoint. -/

theorem checkInterrupted_true_eq (env : Env) (w : SQLDiffWorker) (c : Nat)
    (h : (checkInterrupted env w c).2.2 = true) :
    checkInterrupted env w c = (recordError w .interrupted,
      [Event.checkCancelEv, Event.recordErrorEv .interrupted], true) := by
  unfold checkInterrupted at h ⊢
  rcases hc : env.ctx c with _ | _ | _ <;> simp_all

theorem checkInterrupted_false_eq (env : Env) (w : SQLDiffWorker) (c : Nat)
    (h : ¬ (checkInterrupted env w c).2.2 = true) :
    checkInterrupted env w c = (w, [Event.checkCancelEv], false) := by
  unfold checkInterrupted at h ⊢
  rcases hc : env.ctx c with _ | _ | _ <;> simp_all

theorem checkInterrupted_true_iff (env : Env) (w : SQLDiffWorker) (c : Nat) :
    (checkInterrupted env w c).2.2 = true ↔ env.ctx c = .canceled := by
  unfold checkInterrupted
  rcases hc : env.ctx c with _ | _ | _ <;> simp

theorem checkInterrupted_not_canceled (env : Env) (w : SQLDiffWorker)
    (c : Nat) (h : env.ctx c ≠ .canceled) :
    checkInterrupted env w c = (w, [Event.checkCancelEv], false) := by
  unfold checkInterrupted
  rcases hc : env.ctx c with _ | _ | _
  · rfl
  · exact absurd hc h
  · rfl

theorem checkInterrupted_events (env : Env) (w : SQLDiffWorker) (c : Nat) :
    (checkInterrupted env w c).2.1.all isCheckpointEvent = true := by
  unfold checkInterrupted
  rcases hc : env.ctx c with _ | _ | _ <;> rfl

/-! Helper lemmas about findTargets. -/

theorem findTargets_worker_err (env : Env) (w : SQLDiffWorker) (c : Nat) :
    (findTargets env w c).worker.err = w.err := by
  unfold findTargets findChecker setState
  dsimp only
  repeat' split
  all_goals simp_all

theorem findTargets_worker_state (env : Env) (w : SQLDiffWorker) (c : Nat) :
    (findTargets env w c).worker.state = .sqlDiffFindTargets := by
  unfold findTargets findChecker setState
  dsimp only
  repeat' split
  all_goals simp_all

theorem findTargets_clock (env : Env) (w : SQLDiffWorker) (c : Nat) :
    (findTargets env w c).clock = c := by
  unfold findTargets findChecker
  dsimp only
  repeat' split
  all_goals rfl

theorem findTargets_stateWrites (env : Env) (w : SQLDiffWorker) (c : Nat) :
    stateWrites (findTargets env w c).trace = [.sqlDiffFindTargets] := by
  unfold findTargets findChecker
  dsimp only
  repeat' split
  all_goals simp [stateWrites]

theorem findTargets_events (env : Env) (w : SQLDiffWorker) (c : Nat) :
    (findTargets env w c).trace.all isFindTargetsEvent = true := by
  unfold findTargets findChecker
  dsimp only
  repeat' split
  all_goals simp [isFindTargetsEvent]

/-! Helper lemmas about the cleanup action list. -/

theorem FindCST_append_startSlave (cl : List CleanerAction)
    (x t : TabletAlias) :
    FindChangeSlaveTypeActionByTarget (cl ++ [.startSlave x]) t =
    FindChangeSlaveTypeActionByTarget cl t := by
  induction cl with
  | nil => rfl
  | cons a rest ih =>
    cases a with
    | changeSlaveType tt ty =>
      by_cases h : tt = t <;>
        simp [FindChangeSlaveTypeActionByTarget, h, ih]
    | startSlave tt => simp [FindChangeSlaveTypeActionByTarget, ih]

theorem FindCST_eq_some_mem {cl : List CleanerAction} {t : TabletAlias}
    {ty : TabletType}
    (h : FindChangeSlaveTypeActionByTarget cl t = some ty) :
    CleanerAction.changeSlaveType t ty ∈ cl := by
  induction cl with
  | nil => simp [FindChangeSlaveTypeActionByTarget] at h
  | cons a rest ih =>
    cases a with
    | changeSlaveType tt ty2 =>
      by_cases he : tt = t
      · subst he
        rw [FindChangeSlaveTypeActionByTarget, if_pos rfl] at h
        obtain rfl : ty2 = ty := by simpa using h
        exact List.mem_cons_self _ _
      · rw [FindChangeSlaveTypeActionByTarget, if_neg he] at h
        exact List.mem_cons_of_mem _ (ih h)
    | startSlave tt =>
      rw [FindChangeSlaveTypeActionByTarget] at h
      exact List.mem_cons_of_mem _ (ih h)

theorem mem_setSpare_exists {cl : List CleanerAction} {x t : TabletAlias}
    {ty : TabletType}
    (h : CleanerAction.changeSlaveType t ty ∈ setChangeSlaveTypeSpare cl x) :
    ∃ ty2, CleanerAction.changeSlaveType t ty2 ∈ cl := by
  induction cl with
  | nil => simp [setChangeSlaveTypeSpare] at h
  | cons a rest ih =>
    cases a with
    | changeSlaveType tt ty2 =>
      by_cases he : tt = x
      · rw [setChangeSlaveTypeSpare, if_pos he] at h
        rcases List.mem_cons.mp h with h1 | h1
        · obtain ⟨rfl, rfl⟩ :=
            CleanerAction.changeSlaveType.inj h1.symm
          exact ⟨ty2, List.mem_cons_self _ _⟩
        · exact ⟨ty, List.mem_cons_of_mem _ h1⟩
      · rw [setChangeSlaveTypeSpare, if_neg he] at h
        rcases List.mem_cons.mp h with h1 | h1
        · obtain ⟨rfl, rfl⟩ :=
            CleanerAction.changeSlaveType.inj h1.symm
          exact ⟨ty2, List.mem_cons_self _ _⟩
        · rcases ih h1 with ⟨ty3, h3⟩
          exact ⟨ty3, List.mem_cons_of_mem _ h3⟩
    | startSlave tt =>
      rw [setChangeSlaveTypeSpare] at h
      rcases List.mem_cons.mp h with h1 | h1
      · exact absurd h1 (by simp)
      · rcases ih h1 with ⟨ty3, h3⟩
        exact ⟨ty3, List.mem_cons_of_mem _ h3⟩

theorem FindCST_setSpare_none {cl : List CleanerAction}
    {x t : TabletAlias}
    (h : FindChangeSlaveTypeActionByTarget cl t = none) :
    FindChangeSlaveTypeActionByTarget (setChangeSlaveTypeSpare cl x) t =
      none := by
  induction cl with
  | nil => rfl
  | cons a rest ih =>
    cases a with
    | changeSlaveType tt ty =>
      rw [FindChangeSlaveTypeActionByTarget] at h
      by_cases hxt : tt = t
      · rw [if_pos hxt] at h
        exact absurd h (by simp)
      · rw [if_neg hxt] at h
        by_cases hx : tt = x
        · rw [setChangeSlaveTypeSpare, if_pos hx,
            FindChangeSlaveTypeActionByTarget, if_neg hxt]
          exact h
        · rw [setChangeSlaveTypeSpare, if_neg hx,
            FindChangeSlaveTypeActionByTarget, if_neg hxt]
          exact ih h
    | startSlave tt =>
      rw [FindChangeSlaveTypeActionByTarget] at h
      rw [setChangeSlaveTypeSpare, FindChangeSlaveTypeActionByTarget]
      exact ih h

/-! Helper lemmas about synchronizeReplication. -/

theorem sync_alias_preserved (env : Env) (w : SQLDiffWorker) (c : Nat) :
    (synchronizeReplication env w c).worker.superset.«alias» =
      w.superset.«alias» ∧
    (synchronizeReplication env w c).worker.subset.«alias» =
      w.subset.«alias» := by
  unfold synchronizeReplication checkInterrupted recordError setState
  dsimp only
  repeat' split
  all_goals simp_all

theorem sync_worker_err_characterize (env : Env) (w : SQLDiffWorker)
    (c : Nat) :
    (synchronizeReplication env w c).worker.err = w.err ∨
    ((synchronizeReplication env w c).err = some .interrupted ∧
      (synchronizeReplication env w c).worker.err = some .interrupted) := by
  unfold synchronizeReplication checkInterrupted recordError setState
  dsimp only
  repeat' split
  all_goals simp_all

theorem sync_worker_err_nocancel (env : Env) (w : SQLDiffWorker) (c : Nat)
    (h : ∀ i, env.ctx i ≠ .canceled) :
    (synchronizeReplication env w c).worker.err = w.err := by
  unfold synchronizeReplication checkInterrupted recordError setState
  dsimp only
  repeat' split
  all_goals simp_all

theorem sync_stateWrites_nocancel (env : Env) (w : SQLDiffWorker) (c : Nat)
    (h : ∀ i, env.ctx i ≠ .canceled) :
    stateWrites (synchronizeReplication env w c).trace =
      [.sqlDiffSynchronizeReplication] := by
  unfold synchronizeReplication checkInterrupted
  dsimp only
  repeat' split
  all_goals simp_all [stateWrites]

theorem sync_events (env : Env) (w : SQLDiffWorker) (c : Nat) :
    (synchronizeReplication env w c).trace.all isSyncEvent = true := by
  unfold synchronizeReplication checkInterrupted
  dsimp only
  repeat' split
  all_goals simp [isSyncEvent]

theorem sync_success_conditions (env : Env) (w : SQLDiffWorker) (c : Nat)
    (h : (synchronizeReplication env w c).err = none) :
    env.getTabletSubset = none ∧ env.stopSlaveSubset = none ∧
    env.getTabletSuperset = none ∧ env.stopSlaveSuperset = none ∧
    env.ctx c ≠ .canceled ∧ env.ctx (c + 1) ≠ .canceled ∧
    (∃ ty, FindChangeSlaveTypeActionByTarget
      (w.cleaner ++ [.startSlave w.subset.«alias»]) w.subset.«alias» =
        some ty) ∧
    (∃ ty, FindChangeSlaveTypeActionByTarget
      (setChangeSlaveTypeSpare (w.cleaner ++ [.startSlave w.subset.«alias»])
          w.subset.«alias» ++ [.startSlave w.superset.«alias»])
        w.superset.«alias» = some ty) := by
  unfold synchronizeReplication checkInterrupted setState at h
  dsimp only at h
  repeat' split at h
  all_goals simp_all

theorem sync_success_trace (env : Env) (w : SQLDiffWorker) (c : Nat)
    (h : (synchronizeReplication env w c).err = none) :
    (synchronizeReplication env w c).trace =
      [Event.setStateEv .sqlDiffSynchronizeReplication,
       Event.getTabletCall w.subset.«alias»,
       Event.stopSlaveCall w.subset.«alias» 60,
       Event.checkCancelEv,
       Event.recordStartSlaveEv w.subset.«alias»,
       Event.sleepCall 5,
       Event.checkCancelEv,
       Event.getTabletCall w.superset.«alias»,
       Event.stopSlaveCall w.superset.«alias» 60,
       Event.recordStartSlaveEv w.superset.«alias»] := by
  obtain ⟨h1, h2, h3, h4, hc1, hc2, ⟨ty1, h5⟩, ⟨ty2, h6⟩⟩ :=
    sync_success_conditions env w c h
  have k1 := fun w2 => checkInterrupted_not_canceled env w2 c hc1
  have k2 := fun w2 => checkInterrupted_not_canceled env w2 (c + 1) hc2
  unfold synchronizeReplication setState
  dsimp only
  simp [h1, h2, h3, h4, h5, h6, k1, k2]

theorem sync_stop_wrap (env : Env) (w : SQLDiffWorker) (c : Nat)
    (e : GoError) (h1 : env.getTabletSubset = none)
    (h2 : env.stopSlaveSubset = some e) :
    (synchronizeReplication env w c).err = some (.mk
      ("Cannot stop slave " ++ w.subset.«alias».str ++ ": " ++
        e.message)) := by
  unfold synchronizeReplication setState
  dsimp only
  simp [h1, h2]

theorem sync_no_cst_error (env : Env) (w : SQLDiffWorker) (c : Nat)
    (h1 : env.getTabletSubset = none) (h2 : env.stopSlaveSubset = none)
    (hc : env.ctx c ≠ .canceled)
    (hn : FindChangeSlaveTypeActionByTarget w.cleaner w.subset.«alias» =
      none) :
    (synchronizeReplication env w c).err = some (.mk
      ("cannot find ChangeSlaveType action for " ++
        w.subset.«alias».str)) ∧
    Event.stopSlaveCall w.subset.«alias» 60 ∈
      (synchronizeReplication env w c).trace ∧
    Event.recordStartSlaveEv w.subset.«alias» ∈
      (synchronizeReplication env w c).trace ∧
    CleanerAction.startSlave w.subset.«alias» ∈
      (synchronizeReplication env w c).worker.cleaner := by
  have k1 := fun w2 => checkInterrupted_not_canceled env w2 c hc
  unfold synchronizeReplication setState
  dsimp only
  simp [h1, h2, k1, FindCST_append_startSlave, hn]

theorem sync_no_cst_error_superset (env : Env) (w : SQLDiffWorker)
    (c : Nat)
    (h1 : env.getTabletSubset = none) (h2 : env.stopSlaveSubset = none)
    (hc1 : env.ctx c ≠ .canceled) (hc2 : env.ctx (c + 1) ≠ .canceled)
    (hsub : ∃ ty, FindChangeSlaveTypeActionByTarget w.cleaner
      w.subset.«alias» = some ty)
    (h3 : env.getTabletSuperset = none)
    (h4 : env.stopSlaveSuperset = none)
    (hn : FindChangeSlaveTypeActionByTarget w.cleaner
      w.superset.«alias» = none) :
    (synchronizeReplication env w c).err = some (.mk
      ("cannot find ChangeSlaveType action for " ++
        w.superset.«alias».str)) ∧
    Event.stopSlaveCall w.superset.«alias» 60 ∈
      (synchronizeReplication env w c).trace ∧
    Event.recordStartSlaveEv w.superset.«alias» ∈
      (synchronizeReplication env w c).trace ∧
    CleanerAction.startSlave w.superset.«alias» ∈
      (synchronizeReplication env w c).worker.cleaner := by
  obtain ⟨ty, hty⟩ := hsub
  have k1 := fun w2 => checkInterrupted_not_canceled env w2 c hc1
  have k2 := fun w2 => checkInterrupted_not_canceled env w2 (c + 1) hc2
  have hsubCST : FindChangeSlaveTypeActionByTarget
      (w.cleaner ++ [.startSlave w.subset.«alias»]) w.subset.«alias» =
      some ty := by
    rw [FindCST_append_startSlave]
    exact hty
  have hsupNone : FindChangeSlaveTypeActionByTarget
      (setChangeSlaveTypeSpare
          (w.cleaner ++ [.startSlave w.subset.«alias»])
          w.subset.«alias» ++ [.startSlave w.superset.«alias»])
      w.superset.«alias» = none := by
    rw [FindCST_append_startSlave]
    refine FindCST_setSpare_none ?_
    rw [FindCST_append_startSlave]
    exact hn
  unfold synchronizeReplication setState
  dsimp only
  simp [h1, h2, h3, h4, k1, k2, hsubCST, hsupNone]

theorem sync_timeout60 (env : Env) (w : SQLDiffWorker) (c : Nat)
    (a : TabletAlias) (t : Nat)
    (ht : Event.stopSlaveCall a t ∈ (synchronizeReplication env w c).trace) :
    t = 60 := by
  unfold synchronizeReplication checkInterrupted setState at ht
  dsimp only at ht
  repeat' split at ht
  all_goals simp_all
  all_goals tauto

set_option maxHeartbeats 2000000 in
theorem sync_before_superset (env : Env) (w : SQLDiffWorker) (c : Nat)
    (hne : w.subset.«alias» ≠ w.superset.«alias») :
    (∀ e ∈ (synchronizeReplication env w c).trace,
      contactsTablet w.superset.«alias» e = false) ∨
    (Event.stopSlaveCall w.subset.«alias» 60 ∈
      ((synchronizeReplication env w c).trace.takeWhile
        fun e => !(contactsTablet w.superset.«alias» e)) ∧
    Event.recordStartSlaveEv w.subset.«alias» ∈
      ((synchronizeReplication env w c).trace.takeWhile
        fun e => !(contactsTablet w.superset.«alias» e)) ∧
    Event.sleepCall 5 ∈
      ((synchronizeReplication env w c).trace.takeWhile
        fun e => !(contactsTablet w.superset.«alias» e))) := by
  unfold synchronizeReplication checkInterrupted recordError setState
  dsimp only
  rcases h0 : env.ctx c with _ | _ | _ <;>
    rcases h1 : env.ctx (c + 1) with _ | _ | _ <;>
      simp only [h0, h1] <;>
        (repeat' split) <;>
          simp_all [contactsTablet]

/-! Helper lemmas about diff. -/

theorem diff_worker_err (env : Env) (w : SQLDiffWorker) (c : Nat) :
    (diff env w c).worker.err = w.err := by
  unfold diff setState
  dsimp only
  repeat' split
  all_goals simp_all

theorem diff_alias_preserved (env : Env) (w : SQLDiffWorker) (c : Nat) :
    (diff env w c).worker.superset.«alias» = w.superset.«alias» ∧
    (diff env w c).worker.subset.«alias» = w.subset.«alias» := by
  unfold diff setState
  dsimp only
  repeat' split
  all_goals simp_all

theorem diff_stateWrites (env : Env) (w : SQLDiffWorker) (c : Nat) :
    stateWrites (diff env w c).trace = [.sqlDiffRunning] := by
  unfold diff
  dsimp only
  repeat' split
  all_goals simp [stateWrites]

theorem diff_events (env : Env) (w : SQLDiffWorker) (c : Nat) :
    (diff env w c).trace.all isDiffEvent = true := by
  unfold diff
  dsimp only
  repeat' split
  all_goals simp [isDiffEvent]

theorem diff_err_none_iff (env : Env) (w : SQLDiffWorker) (c : Nat) :
    (diff env w c).err = none ↔
      env.openSuperset = none ∧ env.openSubset = none ∧
        env.newDiffer = none := by
  unfold diff
  dsimp only
  repeat' split
  all_goals simp_all

theorem diff_err_sources (env : Env) (w : SQLDiffWorker) (c : Nat)
    (e : GoError) (h : (diff env w c).err = some e) :
    env.openSuperset = some e ∨ env.openSubset = some e ∨
      env.newDiffer = some e := by
  unfold diff at h
  dsimp only at h
  repeat' split at h
  all_goals simp_all

theorem diff_close_counts (env : Env) (w : SQLDiffWorker) (c : Nat) :
    ((diff env w c).trace.countP (isCloseStream .supersetSide) =
      if env.openSuperset = none then 1 else 0) ∧
    ((diff env w c).trace.countP (isCloseStream .subsetSide) =
      if env.openSuperset = none ∧ env.openSubset = none then 1
      else 0) := by
  unfold diff
  dsimp only
  repeat' split
  all_goals simp_all [isCloseStream]

/-! Counting corollaries of the event vocabulary lemmas. -/

theorem countP_zero_of_all {p q : Event → Bool} (l : List Event)
    (hall : l.all q = true) (hpq : ∀ e, q e = true → p e = false) :
    l.countP p = 0 := by
  rw [List.countP_eq_zero]
  intro a ha
  simp [hpq a (List.all_eq_true.mp hall a ha)]

theorem ft_count_cleanup (env : Env) (w : SQLDiffWorker) (c : Nat) :
    (findTargets env w c).trace.countP isCleanUpCall = 0 :=
  countP_zero_of_all _ (findTargets_events env w c)
    (by intro e he; cases e <;> simp_all [isFindTargetsEvent, isCleanUpCall])

theorem ft_count_stop (env : Env) (w : SQLDiffWorker) (c : Nat) :
    (findTargets env w c).trace.countP isStopSlave = 0 :=
  countP_zero_of_all _ (findTargets_events env w c)
    (by intro e he; cases e <;> simp_all [isFindTargetsEvent, isStopSlave])

theorem ci_count_cleanup (env : Env) (w : SQLDiffWorker) (c : Nat) :
    (checkInterrupted env w c).2.1.countP isCleanUpCall = 0 :=
  countP_zero_of_all _ (checkInterrupted_events env w c)
    (by intro e he; cases e <;> simp_all [isCheckpointEvent, isCleanUpCall])

theorem ci_count_stop (env : Env) (w : SQLDiffWorker) (c : Nat) :
    (checkInterrupted env w c).2.1.countP isStopSlave = 0 :=
  countP_zero_of_all _ (checkInterrupted_events env w c)
    (by intro e he; cases e <;> simp_all [isCheckpointEvent, isStopSlave])

theorem ci_count_alias (env : Env) (w : SQLDiffWorker) (c : Nat)
    (sd : Side) :
    (checkInterrupted env w c).2.1.countP (isAliasWrite sd) = 0 :=
  countP_zero_of_all _ (checkInterrupted_events env w c)
    (by intro e he; cases e <;> simp_all [isCheckpointEvent, isAliasWrite])

theorem sync_count_cleanup (env : Env) (w : SQLDiffWorker) (c : Nat) :
    (synchronizeReplication env w c).trace.countP isCleanUpCall = 0 :=
  countP_zero_of_all _ (sync_events env w c)
    (by intro e he; cases e <;> simp_all [isSyncEvent, isCleanUpCall])

theorem sync_count_alias (env : Env) (w : SQLDiffWorker) (c : Nat)
    (sd : Side) :
    (synchronizeReplication env w c).trace.countP (isAliasWrite sd) = 0 :=
  countP_zero_of_all _ (sync_events env w c)
    (by intro e he; cases e <;> simp_all [isSyncEvent, isAliasWrite])

theorem diff_count_cleanup (env : Env) (w : SQLDiffWorker) (c : Nat) :
    (diff env w c).trace.countP isCleanUpCall = 0 :=
  countP_zero_of_all _ (diff_events env w c)
    (by intro e he; cases e <;> simp_all [isDiffEvent, isCleanUpCall])

theorem diff_count_alias (env : Env) (w : SQLDiffWorker) (c : Nat)
    (sd : Side) :
    (diff env w c).trace.countP (isAliasWrite sd) = 0 :=
  countP_zero_of_all _ (diff_events env w c)
    (by intro e he; cases e <;> simp_all [isDiffEvent, isAliasWrite])

theorem ft_count_alias_le_one (env : Env) (w : SQLDiffWorker) (c : Nat)
    (sd : Side) :
    (findTargets env w c).trace.countP (isAliasWrite sd) ≤ 1 := by
  unfold findTargets findChecker
  dsimp only
  repeat' split
  all_goals cases sd <;>
    simp [List.countP_cons, List.countP_nil, List.countP_append,
      isAliasWrite]

/-! Small unconditional preservation lemmas. -/

theorem ci_alias_sup (env : Env) (w : SQLDiffWorker) (c : Nat) :
    (checkInterrupted env w c).1.superset.«alias» = w.superset.«alias» := by
  unfold checkInterrupted recordError
  rcases hc : env.ctx c with _ | _ | _ <;> rfl

theorem ci_alias_sub (env : Env) (w : SQLDiffWorker) (c : Nat) :
    (checkInterrupted env w c).1.subset.«alias» = w.subset.«alias» := by
  unfold checkInterrupted recordError
  rcases hc : env.ctx c with _ | _ | _ <;> rfl

theorem sync_alias_sup (env : Env) (w : SQLDiffWorker) (c : Nat) :
    (synchronizeReplication env w c).worker.superset.«alias» =
      w.superset.«alias» := (sync_alias_preserved env w c).1

theorem sync_alias_sub (env : Env) (w : SQLDiffWorker) (c : Nat) :
    (synchronizeReplication env w c).worker.subset.«alias» =
      w.subset.«alias» := (sync_alias_preserved env w c).2

theorem diff_alias_sup (env : Env) (w : SQLDiffWorker) (c : Nat) :
    (diff env w c).worker.superset.«alias» = w.superset.«alias» :=
  (diff_alias_preserved env w c).1

theorem diff_alias_sub (env : Env) (w : SQLDiffWorker) (c : Nat) :
    (diff env w c).worker.subset.«alias» = w.subset.«alias» :=
  (diff_alias_preserved env w c).2

theorem ft_err_eq (env : Env) (w : SQLDiffWorker) (c : Nat) :
    (findTargets env w c).err =
      (match env.findCheckerSuperset with
       | .error e => some e
       | .ok _ =>
         match env.findCheckerSubset with
         | .error e => some e
         | .ok _ => none) := by
  unfold findTargets findChecker
  dsimp only
  repeat' split
  all_goals simp_all

theorem stateWrites_append (l1 l2 : List Event) :
    stateWrites (l1 ++ l2) = stateWrites l1 ++ stateWrites l2 :=
  List.filterMap_append l1 l2 _

theorem stateWrites_nil : stateWrites [] = [] := rfl

theorem stateWrites_checkCancel :
    stateWrites [Event.checkCancelEv] = [] := rfl

theorem stateWrites_checkCancel_cons (l : List Event) :
    stateWrites (Event.checkCancelEv :: l) = stateWrites l := rfl

/-! Helper lemmas about run. -/

theorem run_countP_cleanup (env : Env) (w : SQLDiffWorker) :
    (run env w).trace.countP isCleanUpCall = 0 := by
  unfold run
  dsimp only
  repeat' split
  all_goals simp [List.countP_append, ft_count_cleanup, ci_count_cleanup,
    sync_count_cleanup, diff_count_cleanup]

theorem run_count_alias (env : Env) (w : SQLDiffWorker) (sd : Side) :
    (run env w).trace.countP (isAliasWrite sd) =
      (findTargets env w 0).trace.countP (isAliasWrite sd) := by
  unfold run
  dsimp only
  repeat' split
  all_goals simp [List.countP_append, ci_count_alias, sync_count_alias,
    diff_count_alias]

theorem run_alias_sup (env : Env) (w : SQLDiffWorker) :
    (run env w).worker.superset.«alias» =
      (findTargets env w 0).worker.superset.«alias» := by
  unfold run
  dsimp only
  repeat' split
  all_goals simp [ci_alias_sup, sync_alias_sup, diff_alias_sup]

theorem run_alias_sub (env : Env) (w : SQLDiffWorker) :
    (run env w).worker.subset.«alias» =
      (findTargets env w 0).worker.subset.«alias» := by
  unfold run
  dsimp only
  repeat' split
  all_goals simp [ci_alias_sub, sync_alias_sub, diff_alias_sub]

theorem run_worker_err_characterize (env : Env) (w : SQLDiffWorker) :
    (run env w).worker.err = w.err ∨
    ((run env w).err = some .interrupted ∧
      (run env w).worker.err = some .interrupted) := by
  unfold run
  dsimp only
  split
  · exact Or.inl (findTargets_worker_err env w 0)
  · split
    · rename_i h
      rw [checkInterrupted_true_eq _ _ _ h]
      exact Or.inr ⟨rfl, rfl⟩
    · rename_i h1
      rw [checkInterrupted_false_eq _ _ _ h1]
      split
      · rename_i e heqs
        split
        · rename_i h2
          rw [checkInterrupted_true_eq _ _ _ h2]
          exact Or.inr ⟨rfl, rfl⟩
        · rename_i h2
          rw [checkInterrupted_false_eq _ _ _ h2]
          dsimp only
          rcases sync_worker_err_characterize env
              (findTargets env w 0).worker
              ((findTargets env w 0).clock + 1) with hs | ⟨hs1, hs2⟩
          · exact Or.inl (hs.trans (findTargets_worker_err env w 0))
          · rw [heqs] at hs1
            obtain rfl : e = .interrupted := Option.some.inj hs1
            exact Or.inr ⟨rfl, hs2⟩
      · rename_i heqs
        split
        · rename_i h2
          rw [checkInterrupted_true_eq _ _ _ h2]
          exact Or.inr ⟨rfl, rfl⟩
        · rename_i h2
          rw [checkInterrupted_false_eq _ _ _ h2]
          dsimp only
          left
          rw [diff_worker_err]
          rcases sync_worker_err_characterize env
              (findTargets env w 0).worker
              ((findTargets env w 0).clock + 1) with hs | ⟨hs1, _⟩
          · exact hs.trans (findTargets_worker_err env w 0)
          · rw [heqs] at hs1
            exact absurd hs1 (by simp)

theorem run_worker_err_nocancel (env : Env) (w : SQLDiffWorker)
    (hctx : ∀ i, env.ctx i ≠ .canceled) :
    (run env w).worker.err = w.err := by
  unfold run
  dsimp only
  split
  · exact findTargets_worker_err env w 0
  · split
    · rename_i h
      rw [checkInterrupted_true_iff] at h
      exact absurd h (hctx _)
    · rename_i h1
      rw [checkInterrupted_false_eq _ _ _ h1]
      split
      · rename_i e heqs
        split
        · rename_i h2
          rw [checkInterrupted_true_iff] at h2
          exact absurd h2 (hctx _)
        · rename_i h2
          rw [checkInterrupted_false_eq _ _ _ h2]
          dsimp only
          exact (sync_worker_err_nocancel env _ _ hctx).trans
            (findTargets_worker_err env w 0)
      · rename_i heqs
        split
        · rename_i h2
          rw [checkInterrupted_true_iff] at h2
          exact absurd h2 (hctx _)
        · rename_i h2
          rw [checkInterrupted_false_eq _ _ _ h2]
          dsimp only
          rw [diff_worker_err]
          exact (sync_worker_err_nocancel env _ _ hctx).trans
            (findTargets_worker_err env w 0)

theorem run_stateWrites_nocancel (env : Env) (w : SQLDiffWorker)
    (hctx : ∀ i, env.ctx i ≠ .canceled) :
    stateWrites (run env w).trace = [.sqlDiffFindTargets] ∨
    stateWrites (run env w).trace =
      [.sqlDiffFindTargets, .sqlDiffSynchronizeReplication] ∨
    stateWrites (run env w).trace =
      [.sqlDiffFindTargets, .sqlDiffSynchronizeReplication,
        .sqlDiffRunning] := by
  unfold run
  dsimp only
  split
  · exact Or.inl (findTargets_stateWrites env w 0)
  · split
    · rename_i h
      rw [checkInterrupted_true_iff] at h
      exact absurd h (hctx _)
    · rename_i h1
      rw [checkInterrupted_false_eq _ _ _ h1]
      split
      · rename_i e heqs
        split
        · rename_i h2
          rw [checkInterrupted_true_iff] at h2
          exact absurd h2 (hctx _)
        · rename_i h2
          rw [checkInterrupted_false_eq _ _ _ h2]
          dsimp only
          refine Or.inr (Or.inl ?_)
          simp [stateWrites_append, findTargets_stateWrites,
            sync_stateWrites_nocancel env _ _ hctx,
            stateWrites_checkCancel, stateWrites_checkCancel_cons,
            stateWrites_nil]
      · rename_i heqs
        split
        · rename_i h2
          rw [checkInterrupted_true_iff] at h2
          exact absurd h2 (hctx _)
        · rename_i h2
          rw [checkInterrupted_false_eq _ _ _ h2]
          dsimp only
          refine Or.inr (Or.inr ?_)
          simp [stateWrites_append, findTargets_stateWrites,
            sync_stateWrites_nocancel env _ _ hctx, diff_stateWrites,
            stateWrites_checkCancel, stateWrites_checkCancel_cons,
            stateWrites_nil]

theorem run_canceled (env : Env) (w : SQLDiffWorker)
    (hcanc : ∀ i, env.ctx i = .canceled) :
    (run env w).trace.countP isStopSlave = 0 ∧
    (run env w).err =
      (match env.findCheckerSuperset with
       | .error e => some e
       | .ok _ =>
         match env.findCheckerSubset with
         | .error e => some e
         | .ok _ => some .interrupted) := by
  have hci : ∀ (w2 : SQLDiffWorker) (c : Nat),
      checkInterrupted env w2 c = (recordError w2 .interrupted,
        [Event.checkCancelEv, Event.recordErrorEv .interrupted], true) :=
    fun w2 c => by unfold checkInterrupted; rw [hcanc c]
  have hfe := ft_err_eq env w 0
  rcases hA : env.findCheckerSuperset with eA | aA
  · rw [hA] at hfe
    unfold run
    dsimp only
    simp only [hfe]
    exact ⟨ft_count_stop env w 0, by simp [hA]⟩
  · rcases hB : env.findCheckerSubset with eB | aB
    · rw [hA, hB] at hfe
      unfold run
      dsimp only
      simp only [hfe]
      exact ⟨ft_count_stop env w 0, by simp [hA, hB]⟩
    · rw [hA, hB] at hfe
      unfold run
      dsimp only
      simp only [hfe, hci]
      constructor
      · simp [List.countP_append, ft_count_stop, List.countP_cons,
          isStopSlave]
      · simp [hA, hB]

/-! Helper lemmas about Run. -/

theorem Run_final (env : Env) (w : SQLDiffWorker) :
    (∀ e, (run env w).err = some e →
      (Run env w).1.state = .sqlDiffError ∧ (Run env w).1.err = some e) ∧
    ((run env w).err = none → ∀ ce, env.cleanUp = some ce →
      (Run env w).1.state = .sqlDiffError ∧
        (Run env w).1.err = some ce) ∧
    ((run env w).err = none → env.cleanUp = none →
      (Run env w).1.state = .sqlDiffDone ∧
        (Run env w).1.err = (run env w).worker.err) := by
  unfold Run recordError setState
  dsimp only
  rcases hr : (run env w).err with _ | e <;>
    rcases hcl : env.cleanUp with _ | ce <;> simp_all

theorem Run_state_terminal (env : Env) (w : SQLDiffWorker) :
    (Run env w).1.state = .sqlDiffDone ∨
      (Run env w).1.state = .sqlDiffError := by
  unfold Run recordError setState
  dsimp only
  rcases hr : (run env w).err with _ | e <;>
    rcases hcl : env.cleanUp with _ | ce <;> simp_all

theorem Run_trace_decomp (env : Env) (w : SQLDiffWorker) :
    (∃ e, (Run env w).2 = (run env w).trace ++
      [Event.setStateEv .sqlDiffCleanUp, Event.cleanUpCall,
        Event.recordErrorEv e]) ∨
    (Run env w).2 = (run env w).trace ++
      [Event.setStateEv .sqlDiffCleanUp, Event.cleanUpCall,
        Event.setStateEv .sqlDiffDone] := by
  unfold Run
  dsimp only
  rcases hr : (run env w).err with _ | e <;>
    rcases hcl : env.cleanUp with _ | ce
  · exact Or.inr (by simp)
  · exact Or.inl ⟨ce, by simp⟩
  · exact Or.inl ⟨e, by simp⟩
  · exact Or.inl ⟨e, by simp [hr, hcl]⟩

theorem Run_alias_sup (env : Env) (w : SQLDiffWorker) :
    (Run env w).1.superset.«alias» =
      (run env w).worker.superset.«alias» := by
  unfold Run recordError setState
  dsimp only
  rcases hr : (run env w).err with _ | e <;>
    rcases hcl : env.cleanUp with _ | ce <;> simp_all

theorem Run_alias_sub (env : Env) (w : SQLDiffWorker) :
    (Run env w).1.subset.«alias» =
      (run env w).worker.subset.«alias» := by
  unfold Run recordError setState
  dsimp only
  rcases hr : (run env w).err with _ | e <;>
    rcases hcl : env.cleanUp with _ | ce <;> simp_all

theorem Run_count_cleanup (env : Env) (w : SQLDiffWorker) :
    (Run env w).2.countP isCleanUpCall = 1 := by
  rcases Run_trace_decomp env w with ⟨e, hd⟩ | hd <;> rw [hd] <;>
    simp [List.countP_append, run_countP_cleanup, List.countP_cons,
      isCleanUpCall]

theorem Run_count_alias (env : Env) (w : SQLDiffWorker) (sd : Side) :
    (Run env w).2.countP (isAliasWrite sd) =
      (findTargets env w 0).trace.countP (isAliasWrite sd) := by
  rcases Run_trace_decomp env w with ⟨e, hd⟩ | hd <;> rw [hd] <;>
    simp [List.countP_append, run_count_alias, List.countP_cons,
      isAliasWrite]

theorem Run_count_stop_canceled (env : Env) (w : SQLDiffWorker)
    (hcanc : ∀ i, env.ctx i = .canceled) :
    (Run env w).2.countP isStopSlave = 0 := by
  rcases Run_trace_decomp env w with ⟨e, hd⟩ | hd <;> rw [hd] <;>
    simp [List.countP_append, (run_canceled env w hcanc).1,
      List.countP_cons, isStopSlave]

/-! The claims. -/

/-- C1: after run() returns (success, failure or interruption), Run
transitions to CleaningUp and invokes the cleaner exactly once; a
cleanup failure becomes the terminal error only when run() succeeded,
while after a failed run it is only logged and the original run error
is retained; the final state is Done exactly when both run() and
cleanup succeeded, and otherwise Error with the retained error value. -/
theorem claim_c1_run_cleanup_merge (env : Env) (w : SQLDiffWorker) :
    ((Run env w).2.countP isCleanUpCall = 1) ∧
    (∃ n, ((Run env w).2.drop n).take 2 =
      [Event.setStateEv .sqlDiffCleanUp, Event.cleanUpCall]) ∧
    (∀ e, (run env w).err = some e →
      (Run env w).1.state = .sqlDiffError ∧ (Run env w).1.err = some e) ∧
    ((run env w).err = none → ∀ ce, env.cleanUp = some ce →
      (Run env w).1.state = .sqlDiffError ∧
        (Run env w).1.err = some ce) ∧
    ((Run env w).1.state = .sqlDiffDone ↔
      ((run env w).err = none ∧ env.cleanUp = none)) := by
  obtain ⟨hf1, hf2, hf3⟩ := Run_final env w
  refine ⟨Run_count_cleanup env w, ?_, hf1, hf2, ?_⟩
  · rcases Run_trace_decomp env w with ⟨e, hd⟩ | hd <;>
      exact ⟨(run env w).trace.length, by rw [hd, List.drop_left]; rfl⟩
  · constructor
    · intro hdone
      rcases hr : (run env w).err with _ | e
      · rcases hcl : env.cleanUp with _ | ce
        · exact ⟨rfl, rfl⟩
        · rw [(hf2 hr ce hcl).1] at hdone
          simp at hdone
      · rw [(hf1 e hr).1] at hdone
        simp at hdone
    · rintro ⟨hr, hcl⟩
      exact (hf3 hr hcl).1

/-- Witness for C1: a fully successful concrete run ends in Done. -/
theorem claim_c1_run_cleanup_merge_witness :
    (run envOK w0).err = none ∧ envOK.cleanUp = none ∧
    (Run envOK w0).1.state = .sqlDiffDone := by
  have h := claim_c1_run_cleanup_merge envOK w0
  exact ⟨by decide, rfl, h.2.2.2.2.mpr ⟨by decide, rfl⟩⟩

/-- C2 counterexample: with every step succeeding except the row
comparison itself, differ.Go fails fatally, yet diff() only logs the
failure and returns nil, run() returns nil, and the terminal state is
Done, not Error as the claim requires. -/
theorem claim_c2_counterexample :
    envDifferFail.differGo = some (.mk "fatal read error") ∧
    Event.differGoEv true ∈ (Run envDifferFail w0).2 ∧
    (run envDifferFail w0).err = none ∧
    (Run envDifferFail w0).1.state = .sqlDiffDone := by decide

/-- C2 (amended): every error returned by a phase propagates out of
run() and forces the terminal state Error with that error retained, and
within the diff phase the stream-opening and differ-construction errors
are returned unmodified; but a differ.Go comparison failure is only
logged — diff() returns success in that case — so only errors arising
before the comparison itself reach the outer state machine, which alone
decides between Error and Done. -/
theorem claim_c2_amended_error_propagation (env : Env) (w : SQLDiffWorker)
    (c : Nat) :
    (∀ e, (run env w).err = some e →
      (Run env w).1.state = .sqlDiffError ∧ (Run env w).1.err = some e) ∧
    (∀ e, (diff env w c).err = some e →
      env.openSuperset = some e ∨ env.openSubset = some e ∨
        env.newDiffer = some e) ∧
    (env.openSuperset = none → env.openSubset = none →
      env.newDiffer = none → (diff env w c).err = none) := by
  refine ⟨(Run_final env w).1, fun e he => diff_err_sources env w c e he,
    fun h1 h2 h3 => ?_⟩
  exact (diff_err_none_iff env w c).mpr ⟨h1, h2, h3⟩

/-- Witness for the amended C2: a failed stream open propagates to the
Error terminal state, and a run whose pre-comparison steps succeed has a
successful diff phase. -/
theorem claim_c2_amended_witness :
    ((Run envOpenFail w0).1.state = .sqlDiffError ∧
      (Run envOpenFail w0).1.err = some (.mk "open failed")) ∧
    (diff envOK w0 0).err = none := by
  have h := claim_c2_amended_error_propagation envOpenFail w0 0
  have h2 := claim_c2_amended_error_propagation envOK w0 0
  exact ⟨h.1 (.mk "open failed") (by decide), h2.2.2 rfl rfl rfl⟩

/-- C3 counterexample: cancelling right after the first checkpoint makes
checkInterrupted record the Error state during the run, after which Run
writes CleaningUp: the state write sequence moves from Error back to
CleaningUp, refuting strict forward monotonicity. -/
theorem claim_c3_counterexample :
    forwardWrites (stateWrites (Run envCancelTail w0).2) = false := by
  decide

/-- C3 (amended): in runs where cancellation is never observed the state
writes move only forward along the claimed order with exactly one
terminal write; in every run (from a fresh worker) the final state is
exactly one of Done or Error, and it is Error exactly when a non-nil
error value is retained. When cancellation is observed at a checkpoint,
the Error state is recorded immediately and Run then writes CleaningUp
before the final terminal write, which is the one backward step. -/
theorem claim_c3_amended_monotonicity (env : Env) (w : SQLDiffWorker)
    (hfresh : w.err = none) :
    ((∀ i, env.ctx i ≠ .canceled) →
      forwardWrites (stateWrites (Run env w).2) = true ∧
      (stateWrites (Run env w).2).countP isTerminal = 1) ∧
    ((Run env w).1.state = .sqlDiffDone ∨
      (Run env w).1.state = .sqlDiffError) ∧
    ((Run env w).1.state = .sqlDiffError ↔ (Run env w).1.err ≠ none) := by
  obtain ⟨hf1, hf2, hf3⟩ := Run_final env w
  refine ⟨?_, Run_state_terminal env w, ?_, ?_⟩
  · intro hctx
    have htail1 : ∀ e : GoError,
        stateWrites [Event.setStateEv .sqlDiffCleanUp, Event.cleanUpCall,
          Event.recordErrorEv e] = [.sqlDiffCleanUp, .sqlDiffError] :=
      fun e => rfl
    have htail2 : stateWrites [Event.setStateEv .sqlDiffCleanUp,
        Event.cleanUpCall, Event.setStateEv .sqlDiffDone] =
        [.sqlDiffCleanUp, .sqlDiffDone] := rfl
    rcases Run_trace_decomp env w with ⟨e, hd⟩ | hd
    · rw [hd, stateWrites_append, htail1 e]
      rcases run_stateWrites_nocancel env w hctx with h | h | h <;>
        rw [h] <;> decide
    · rw [hd, stateWrites_append, htail2]
      rcases run_stateWrites_nocancel env w hctx with h | h | h <;>
        rw [h] <;> decide
  · intro herr
    rcases hr : (run env w).err with _ | e
    · rcases hcl : env.cleanUp with _ | ce
      · rw [(hf3 hr hcl).1] at herr
        simp at herr
      · rw [(hf2 hr ce hcl).2]
        simp
    · rw [(hf1 e hr).2]
      simp
  · intro herr
    rcases hr : (run env w).err with _ | e
    · rcases hcl : env.cleanUp with _ | ce
      · exfalso
        apply herr
        rw [(hf3 hr hcl).2]
        rcases run_worker_err_characterize env w with h | ⟨h1, _⟩
        · rw [h, hfresh]
        · rw [hr] at h1
          simp at h1
      · exact (hf2 hr ce hcl).1
    · exact (hf1 e hr).1

/-- Witness for the amended C3: the fully successful concrete run has
forward-monotone state writes with a single terminal write. -/
theorem claim_c3_amended_witness :
    forwardWrites (stateWrites (Run envOK w0).2) = true ∧
    (stateWrites (Run envOK w0).2).countP isTerminal = 1 := by
  have h := claim_c3_amended_monotonicity envOK w0 rfl
  exact h.1 (fun i h2 => nomatch h2)

/-- C4 counterexample: with the context cancelled, the subset halt
succeeds and the phase exits at the cancellation checkpoint that the
code places before the recording of the compensating action: replication
was halted but no StartSlave undo action was recorded, so an exit
between the halt and the recording is possible, contrary to the claimed
order (halt, record, then re-check cancellation). -/
theorem claim_c4_counterexample :
    Event.stopSlaveCall aliasB 60 ∈
      (synchronizeReplication envAllCanceled wReady 0).trace ∧
    (synchronizeReplication envAllCanceled wReady 0).err =
      some .interrupted ∧
    Event.recordStartSlaveEv aliasB ∉
      (synchronizeReplication envAllCanceled wReady 0).trace ∧
    CleanerAction.startSlave aliasB ∉
      (synchronizeReplication envAllCanceled wReady 0).worker.cleaner := by
  decide

/-- C4 (amended): synchronizeReplication halts replication on the subset
replica under a 60-second per-call timeout, then re-checks cancellation,
then records the compensating action, then sleeps the fixed 5-second
settling interval, then re-checks cancellation, and only then contacts
the superset replica, halts it under the same timeout and records its
compensating action; every halt uses the 60-second timeout and the
superset replica is never contacted before the subset halt, the undo
recording and the settling wait have completed. -/
theorem claim_c4_amended_sync_order (env : Env) (w : SQLDiffWorker)
    (c : Nat) (hne : w.subset.«alias» ≠ w.superset.«alias») :
    (∀ a t, Event.stopSlaveCall a t ∈
      (synchronizeReplication env w c).trace → t = 60) ∧
    ((synchronizeReplication env w c).err = none →
      (synchronizeReplication env w c).trace =
        [Event.setStateEv .sqlDiffSynchronizeReplication,
         Event.getTabletCall w.subset.«alias»,
         Event.stopSlaveCall w.subset.«alias» 60,
         Event.checkCancelEv,
         Event.recordStartSlaveEv w.subset.«alias»,
         Event.sleepCall 5,
         Event.checkCancelEv,
         Event.getTabletCall w.superset.«alias»,
         Event.stopSlaveCall w.superset.«alias» 60,
         Event.recordStartSlaveEv w.superset.«alias»]) ∧
    ((∃ e ∈ (synchronizeReplication env w c).trace,
        contactsTablet w.superset.«alias» e = true) →
      Event.stopSlaveCall w.subset.«alias» 60 ∈
        ((synchronizeReplication env w c).trace.takeWhile
          fun e => !(contactsTablet w.superset.«alias» e)) ∧
      Event.recordStartSlaveEv w.subset.«alias» ∈
        ((synchronizeReplication env w c).trace.takeWhile
          fun e => !(contactsTablet w.superset.«alias» e)) ∧
      Event.sleepCall 5 ∈
        ((synchronizeReplication env w c).trace.takeWhile
          fun e => !(contactsTablet w.superset.«alias» e))) := by
  refine ⟨fun a t ht => sync_timeout60 env w c a t ht,
    fun h => sync_success_trace env w c h, fun hex => ?_⟩
  rcases sync_before_superset env w c hne with hnone | h3
  · obtain ⟨e, he, hce⟩ := hex
    rw [hnone e he] at hce
    cases hce
  · exact h3

/-- Witness for the amended C4: the successful concrete synchronization
run has exactly the amended event order. -/
theorem claim_c4_amended_witness :
    wReady.subset.«alias» ≠ wReady.superset.«alias» ∧
    (synchronizeReplication envOK wReady 0).err = none ∧
    (synchronizeReplication envOK wReady 0).trace =
      [Event.setStateEv .sqlDiffSynchronizeReplication,
       Event.getTabletCall wReady.subset.«alias»,
       Event.stopSlaveCall wReady.subset.«alias» 60,
       Event.checkCancelEv,
       Event.recordStartSlaveEv wReady.subset.«alias»,
       Event.sleepCall 5,
       Event.checkCancelEv,
       Event.getTabletCall wReady.superset.«alias»,
       Event.stopSlaveCall wReady.superset.«alias» 60,
       Event.recordStartSlaveEv wReady.superset.«alias»] := by
  have h := claim_c4_amended_sync_order envOK wReady 0 (by decide)
  exact ⟨by decide, by decide, h.2.1 (by decide)⟩

/-- C5: interruption is classified only by explicit external
cancellation: a checkpoint observing a context done with a deadline
error reports no interruption and records nothing; when no checkpoint
ever observes cancellation the run records no interruption
classification at all; and a timed-out halt call surfaces as an
ordinary wrapped phase failure, never as the interrupted error. -/
theorem claim_c5_timeout_not_interruption (env : Env) (w : SQLDiffWorker)
    (c : Nat) (e : GoError) :
    (env.ctx c = .deadlineExceeded →
      checkInterrupted env w c = (w, [Event.checkCancelEv], false)) ∧
    ((∀ i, env.ctx i ≠ .canceled) →
      (run env w).worker.err = w.err) ∧
    (env.getTabletSubset = none → env.stopSlaveSubset = some e →
      (synchronizeReplication env w c).err = some (.mk
        ("Cannot stop slave " ++ w.subset.«alias».str ++ ": " ++
          e.message)) ∧
      (synchronizeReplication env w c).err ≠ some .interrupted) := by
  refine ⟨fun h => checkInterrupted_not_canceled env w c (by simp [h]),
    run_worker_err_nocancel env w, fun h1 h2 => ?_⟩
  have hw := sync_stop_wrap env w c e h1 h2
  exact ⟨hw, by rw [hw]; simp⟩

/-- Witness for C5: a deadline-expired context is not an interruption,
and a timed-out subset halt yields the ordinary wrapped error. -/
theorem claim_c5_witness :
    checkInterrupted envDeadlineStop wReady 0 =
      (wReady, [Event.checkCancelEv], false) ∧
    (run envDeadlineStop wReady).worker.err = none ∧
    (synchronizeReplication envDeadlineStop wReady 0).err =
      some (.mk "Cannot stop slave cellA-2: stop slave timed out") := by
  have h := claim_c5_timeout_not_interruption envDeadlineStop wReady 0
    (.mk "stop slave timed out")
  refine ⟨h.1 rfl, ?_, ?_⟩
  · have h2 := h.2.1 (fun i hc => nomatch hc)
    rw [h2]
    rfl
  · exact (h.2.2 rfl rfl).1

/-- C6 counterexample: with the context cancelled before the run and
target discovery failing (as a cancelled resolution call does), the run
reaches Error but carries the discovery error rather than the
interrupted classification; no replication halt is issued. -/
theorem claim_c6_counterexample :
    (Run envC6 w0).2.countP isStopSlave = 0 ∧
    (Run envC6 w0).1.state = .sqlDiffError ∧
    (Run envC6 w0).1.err = some (.mk "context canceled") ∧
    (Run envC6 w0).1.err ≠ some .interrupted := by decide

/-- C6 (amended): for a run whose context is cancelled before Run()
starts, no replication halt is ever issued and the terminal state is
Error; the error carries the interrupted classification whenever target
discovery itself succeeds, and otherwise the discovery error is
retained instead. -/
theorem claim_c6_amended_cancel_before_run (env : Env) (w : SQLDiffWorker)
    (hcanc : ∀ i, env.ctx i = .canceled) :
    (Run env w).2.countP isStopSlave = 0 ∧
    (Run env w).1.state = .sqlDiffError ∧
    (∀ a b, env.findCheckerSuperset = .ok a →
      env.findCheckerSubset = .ok b →
      (Run env w).1.err = some .interrupted) ∧
    (∀ e, env.findCheckerSuperset = .error e →
      (Run env w).1.err = some e) ∧
    (∀ a e, env.findCheckerSuperset = .ok a →
      env.findCheckerSubset = .error e → (Run env w).1.err = some e) := by
  have hrc := run_canceled env w hcanc
  refine ⟨Run_count_stop_canceled env w hcanc, ?_, ?_, ?_, ?_⟩
  · rcases hA : env.findCheckerSuperset with eA | aA
    · exact ((Run_final env w).1 eA (by rw [hrc.2, hA])).1
    · rcases hB : env.findCheckerSubset with eB | aB
      · exact ((Run_final env w).1 eB (by rw [hrc.2, hA, hB])).1
      · exact ((Run_final env w).1 .interrupted
          (by rw [hrc.2, hA, hB])).1
  · intro a b hA hB
    exact ((Run_final env w).1 .interrupted (by rw [hrc.2, hA, hB])).2
  · intro e hA
    exact ((Run_final env w).1 e (by rw [hrc.2, hA])).2
  · intro a e hA hB
    exact ((Run_final env w).1 e (by rw [hrc.2, hA, hB])).2

/-- Witness for the amended C6: cancelled before the run with
successful discovery, the concrete run ends in Error carrying the
interrupted classification and issues no replication halt. -/
theorem claim_c6_amended_witness :
    (Run envAllCanceled w0).2.countP isStopSlave = 0 ∧
    (Run envAllCanceled w0).1.state = .sqlDiffError ∧
    (Run envAllCanceled w0).1.err = some .interrupted := by
  have h := claim_c6_amended_cancel_before_run envAllCanceled w0
    (fun i => rfl)
  exact ⟨h.1, h.2.1, h.2.2.1 aliasA aliasB rfl rfl⟩

/-- C7: the diff phase closes exactly the streams it opened on every
exit path: the superset stream is closed exactly when its open
succeeded, and the subset stream exactly when both opens succeeded (it
is only opened after the superset open succeeded); no opened stream is
leaked and no unopened stream is closed. -/
theorem claim_c7_diff_closes_streams (env : Env) (w : SQLDiffWorker)
    (c : Nat) :
    ((diff env w c).trace.countP (isCloseStream .supersetSide) =
      if env.openSuperset = none then 1 else 0) ∧
    ((diff env w c).trace.countP (isCloseStream .subsetSide) =
      if env.openSuperset = none ∧ env.openSubset = none then 1
      else 0) :=
  diff_close_counts env w c

/-- C8: each alias field is written at most once per run and only
inside findTargets: over a whole Run the alias writes are exactly those
of the findTargets phase and number at most one per side,
synchronizeReplication and diff never write an alias field, and the
final alias values are exactly the ones findTargets produced. -/
theorem claim_c8_alias_write_once (env : Env) (w : SQLDiffWorker)
    (c : Nat) (sd : Side) :
    ((Run env w).2.countP (isAliasWrite sd) =
      (findTargets env w 0).trace.countP (isAliasWrite sd)) ∧
    ((findTargets env w 0).trace.countP (isAliasWrite sd) ≤ 1) ∧
    ((synchronizeReplication env w c).trace.countP
      (isAliasWrite sd) = 0) ∧
    ((diff env w c).trace.countP (isAliasWrite sd) = 0) ∧
    ((synchronizeReplication env w c).worker.superset.«alias» =
      w.superset.«alias») ∧
    ((synchronizeReplication env w c).worker.subset.«alias» =
      w.subset.«alias») ∧
    ((diff env w c).worker.superset.«alias» = w.superset.«alias») ∧
    ((diff env w c).worker.subset.«alias» = w.subset.«alias») ∧
    ((Run env w).1.superset.«alias» =
      (findTargets env w 0).worker.superset.«alias») ∧
    ((Run env w).1.subset.«alias» =
      (findTargets env w 0).worker.subset.«alias») :=
  ⟨Run_count_alias env w sd, ft_count_alias_le_one env w 0 sd,
    sync_count_alias env w c sd, diff_count_alias env w c sd,
    sync_alias_sup env w c, sync_alias_sub env w c,
    diff_alias_sup env w c, diff_alias_sub env w c,
    (Run_alias_sup env w).trans (run_alias_sup env w),
    (Run_alias_sub env w).trans (run_alias_sub env w)⟩

/-- C9: for every worker snapshot both status renderers show the same
information — the same target identity, the same state string, and the
same conditional third line — each being the corresponding formatting
of a common snapshot, differing only in markup and line separators. -/
theorem claim_c9_status_renderings_agree (w : SQLDiffWorker) :
    StatusAsText w = renderStatusText (statusSnapshot w) ∧
    StatusAsHTML w = renderStatusHTML (statusSnapshot w) := by
  cases h : w.state <;>
    simp [StatusAsText, StatusAsHTML, renderStatusText, renderStatusHTML,
      statusSnapshot, h, String.append_assoc]

/-- C10: synchronizeReplication can only succeed when the cleaner
already holds a ChangeSlaveType action for each replica alias, and for
either replica, when its replication is halted without such an action
present the phase fails with the cannot-find error naming that replica,
after having already halted its replication and recorded its StartSlave
undo action. -/
theorem claim_c10_missing_cst_action (env : Env) (w : SQLDiffWorker)
    (c : Nat) :
    ((synchronizeReplication env w c).err = none →
      (∃ ty, CleanerAction.changeSlaveType w.subset.«alias» ty ∈
        w.cleaner) ∧
      (∃ ty, CleanerAction.changeSlaveType w.superset.«alias» ty ∈
        w.cleaner)) ∧
    (env.getTabletSubset = none → env.stopSlaveSubset = none →
      env.ctx c ≠ .canceled →
      FindChangeSlaveTypeActionByTarget w.cleaner w.subset.«alias» =
        none →
      (synchronizeReplication env w c).err = some (.mk
        ("cannot find ChangeSlaveType action for " ++
          w.subset.«alias».str)) ∧
      Event.stopSlaveCall w.subset.«alias» 60 ∈
        (synchronizeReplication env w c).trace ∧
      Event.recordStartSlaveEv w.subset.«alias» ∈
        (synchronizeReplication env w c).trace ∧
      CleanerAction.startSlave w.subset.«alias» ∈
        (synchronizeReplication env w c).worker.cleaner) ∧
    (env.getTabletSubset = none → env.stopSlaveSubset = none →
      env.ctx c ≠ .canceled → env.ctx (c + 1) ≠ .canceled →
      (∃ ty, FindChangeSlaveTypeActionByTarget w.cleaner
        w.subset.«alias» = some ty) →
      env.getTabletSuperset = none → env.stopSlaveSuperset = none →
      FindChangeSlaveTypeActionByTarget w.cleaner w.superset.«alias» =
        none →
      (synchronizeReplication env w c).err = some (.mk
        ("cannot find ChangeSlaveType action for " ++
          w.superset.«alias».str)) ∧
      Event.stopSlaveCall w.superset.«alias» 60 ∈
        (synchronizeReplication env w c).trace ∧
      Event.recordStartSlaveEv w.superset.«alias» ∈
        (synchronizeReplication env w c).trace ∧
      CleanerAction.startSlave w.superset.«alias» ∈
        (synchronizeReplication env w c).worker.cleaner) := by
  refine ⟨?_, sync_no_cst_error env w c, ?_⟩
  · intro h
    obtain ⟨_, _, _, _, _, _, ⟨ty1, h5⟩, ⟨ty2, h6⟩⟩ :=
      sync_success_conditions env w c h
    rw [FindCST_append_startSlave] at h5 h6
    refine ⟨⟨ty1, FindCST_eq_some_mem h5⟩, ?_⟩
    have hm := FindCST_eq_some_mem h6
    rcases mem_setSpare_exists hm with ⟨ty3, h3⟩
    rcases List.mem_append.mp h3 with h4 | h4
    · exact ⟨ty3, h4⟩
    · exact absurd h4 (by simp)
  · intro h1 h2 hc1 hc2 hsub h3 h4 hn
    exact sync_no_cst_error_superset env w c h1 h2 hc1 hc2 hsub h3 h4 hn

/-- Witness for C10: halting with an empty cleaner yields the subset
cannot-find error after the subset halt and StartSlave recording, and
halting with only the subset action recorded yields the superset
cannot-find error after the superset halt and StartSlave recording. -/
theorem claim_c10_witness :
    ((synchronizeReplication envOK wNoCST 0).err = some (.mk
      ("cannot find ChangeSlaveType action for " ++
        wNoCST.subset.«alias».str)) ∧
    Event.stopSlaveCall wNoCST.subset.«alias» 60 ∈
      (synchronizeReplication envOK wNoCST 0).trace ∧
    Event.recordStartSlaveEv wNoCST.subset.«alias» ∈
      (synchronizeReplication envOK wNoCST 0).trace ∧
    CleanerAction.startSlave wNoCST.subset.«alias» ∈
      (synchronizeReplication envOK wNoCST 0).worker.cleaner) ∧
    ((synchronizeReplication envOK wNoCSTSup 0).err = some (.mk
      ("cannot find ChangeSlaveType action for " ++
        wNoCSTSup.superset.«alias».str)) ∧
    Event.stopSlaveCall wNoCSTSup.superset.«alias» 60 ∈
      (synchronizeReplication envOK wNoCSTSup 0).trace ∧
    Event.recordStartSlaveEv wNoCSTSup.superset.«alias» ∈
      (synchronizeReplication envOK wNoCSTSup 0).trace ∧
    CleanerAction.startSlave wNoCSTSup.superset.«alias» ∈
      (synchronizeReplication envOK wNoCSTSup 0).worker.cleaner) :=
  ⟨(claim_c10_missing_cst_action envOK wNoCST 0).2.1 rfl rfl
      (by decide) rfl,
    (claim_c10_missing_cst_action envOK wNoCSTSup 0).2.2 rfl rfl
      (by decide) (by decide) ⟨.rdonly, by decide⟩ rfl rfl
      (by decide)⟩

end SqlDiff
